import Mathlib

/-! Verification of the gesture-driven particle system in app.js.
    The development embeds the gesture classifier, the forced-override
    state machine, the color resampling pass and the per-particle shape
    field math of the vertex program, and proves the specified
    properties about them. -/

namespace ParticleApp

/-- The five gesture values of the GESTURES table in app.js. -/
inductive Gesture where
  | NONE
  | FIST
  | OPEN
  | PEACE
  | METAL
  deriving DecidableEq, Fintype

/-- A 3-D point with rational coordinates, used for camera-space
    landmarks and for the anchor. -/
structure Pt3 where
  x : ℚ
  y : ℚ
  z : ℚ
  deriving DecidableEq

/-- A landmark array as delivered by the tracker: index into the
    21 tracked points of one hand. -/
abbrev Landmarks := Nat → Pt3

/-- app.js isFingerExtended: the tip y-coordinate is below the base
    y-coordinate minus the fixed 0.05 margin. -/
def isFingerExtended (lm : Landmarks) (tipIdx baseIdx : Nat) : Bool :=
  decide ((lm tipIdx).y < (lm baseIdx).y - 0.05)

/-- app.js isThumbExtended: absolute horizontal distance between tip
    (landmark 4) and base (landmark 2) exceeds 0.05. -/
def isThumbExtended (lm : Landmarks) : Bool :=
  decide (|(lm 4).x - (lm 2).x| > 0.05)

/-- The four non-thumb finger extension flags. -/
structure FingerCombo where
  index : Bool
  middle : Bool
  ring : Bool
  pinky : Bool
  deriving DecidableEq

/-- The finger flags computed at the top of app.js detectGesture, with
    the tip/base landmark pairs used there. -/
def fingersOf (lm : Landmarks) : FingerCombo :=
  { index := isFingerExtended lm 8 5
    middle := isFingerExtended lm 12 9
    ring := isFingerExtended lm 16 13
    pinky := isFingerExtended lm 20 17 }

/-- app.js detectGesture: the priority chain over the finger flags.
    The thumb flag is computed in the source but read by no rule, so it
    is omitted here. -/
def detectGesture (lm : Landmarks) (prev : Gesture) : Gesture :=
  let f := fingersOf lm
  if f.index && !f.middle && !f.ring && f.pinky then Gesture.METAL
  else if f.index && f.middle && !f.ring && !f.pinky then Gesture.PEACE
  else if !f.index && !f.middle && !f.ring && !f.pinky then Gesture.FIST
  else if f.index && f.middle && f.ring && f.pinky then Gesture.OPEN
  else prev

/-- Modelled from the spec text of section 4.1: the classification is a
    function of the four finger booleans alone, evaluated in fixed
    priority order with first match winning, and any unmatched
    combination keeps the previous gesture. Used as the specification
    side of the refinement theorem for claim C1. -/
def specGestureRule (c : FingerCombo) (prev : Gesture) : Gesture :=
  if c.index = true ∧ c.middle = false ∧ c.ring = false ∧ c.pinky = true then
    Gesture.METAL
  else if c.index = true ∧ c.middle = true ∧ c.ring = false ∧ c.pinky = false then
    Gesture.PEACE
  else if c.index = false ∧ c.middle = false ∧ c.ring = false ∧ c.pinky = false then
    Gesture.FIST
  else if c.index = true ∧ c.middle = true ∧ c.ring = true ∧ c.pinky = true then
    Gesture.OPEN
  else prev

/-- The anchor computation of app.js onHandResults: midpoint of wrist
    (landmark 0) and middle-finger base (landmark 9), x mirrored, y
    sign-flipped, z negated and clamped to the interval from -1 to 1. -/
def computeAnchor (lm : Landmarks) : Pt3 :=
  { x := (1 - ((lm 0).x + (lm 9).x) / 2) * 2 - 1
    y := -(((lm 0).y + (lm 9).y) / 2 * 2 - 1)
    z := max (-1) (min 1 (-(((lm 0).z + (lm 9).z) / 2))) }

/-- The mutable application state of app.js relevant to gestures: the
    anchor, the current gesture, the forced-shape flag, the id of the
    last scheduled reversion timeout, the set of scheduled timeouts
    still pending (id and fire time in milliseconds), and a counter
    producing fresh timeout ids. -/
structure AppState where
  handPosition : Pt3
  currentGesture : Gesture
  isForcedShape : Bool
  forcedShapeTimer : Option Nat
  pending : List (Nat × Nat)
  nextId : Nat

/-- The initial state object of app.js. -/
def initState : AppState :=
  { handPosition := ⟨0, 0, 0⟩
    currentGesture := Gesture.NONE
    isForcedShape := false
    forcedShapeTimer := none
    pending := []
    nextId := 0 }

/-- app.js onHandResults: with a hand present the anchor is recomputed
    unconditionally and the gesture is reclassified only when no forced
    override is active; with no hand, a forced override keeps gesture
    and anchor, otherwise the gesture falls back to NONE and the anchor
    keeps its last value. -/
def onHandResults (res : Option Landmarks) (st : AppState) : AppState :=
  match res with
  | some lm =>
      let st1 := { st with handPosition := computeAnchor lm }
      if st.isForcedShape then st1
      else { st1 with currentGesture := detectGesture lm st.currentGesture }
  | none =>
      if st.isForcedShape then st
      else { st with currentGesture := Gesture.NONE }

/-- app.js forceShape: set the gesture and the forced flag, clear any
    previously scheduled reversion timeout, and schedule a fresh
    reversion timeout 5000 milliseconds from now. -/
def forceShape (shape : Gesture) (now : Nat) (st : AppState) : AppState :=
  let cleared :=
    match st.forcedShapeTimer with
    | some tid0 => st.pending.filter (fun p => p.1 != tid0)
    | none => st.pending
  { st with
      currentGesture := shape
      isForcedShape := true
      forcedShapeTimer := some st.nextId
      pending := (st.nextId, now + 5000) :: cleared
      nextId := st.nextId + 1 }

/-- Firing of a scheduled timeout: if the id is still pending, the
    forced flag is dropped, the gesture reverts to NONE, and the
    timeout is removed; a cancelled id does nothing. -/
def fireTimer (tid : Nat) (st : AppState) : AppState :=
  if st.pending.any (fun p => p.1 == tid) then
    { st with
        isForcedShape := false
        currentGesture := Gesture.NONE
        pending := st.pending.filter (fun p => p.1 != tid) }
  else st

/-- Timer bookkeeping invariant: at most one timeout is pending and any
    pending timeout is the one recorded in forcedShapeTimer. -/
def TimerInv (st : AppState) : Prop :=
  st.pending.length ≤ 1 ∧ ∀ p ∈ st.pending, st.forcedShapeTimer = some p.1

/-- A particle color as the HSL triple passed to setHSL in
    updateParticleColors. -/
structure HSL where
  h : ℚ
  s : ℚ
  l : ℚ
  deriving DecidableEq

/-- The hue base selected by the switch in app.js updateParticleColors,
    with NONE on the default branch. -/
def hueBaseOf : Gesture → ℚ
  | Gesture.NONE => 0.5
  | Gesture.FIST => 0.08
  | Gesture.OPEN => 0.4
  | Gesture.PEACE => 0.6
  | Gesture.METAL => 0.95

/-- The hue range selected by the switch in app.js
    updateParticleColors, with NONE on the default branch. -/
def hueRangeOf : Gesture → ℚ
  | Gesture.NONE => 0.1
  | Gesture.FIST => 0.1
  | Gesture.OPEN => 0.15
  | Gesture.PEACE => 0.2
  | Gesture.METAL => 0.1

/-- The sampling stride of app.js updateParticleColors. -/
def updateInterval (count : Nat) : Nat :=
  max 1 (count / 300)

/-- One pass of app.js updateParticleColors: the loop touches exactly
    the indices below count that are multiples of the stride, giving
    each a fresh hue at saturation 1 and lightness 0.5; every other
    particle keeps its previous color. The rand argument stands for the
    Math.random draw made at index i. -/
def updateParticleColors (g : Gesture) (rand : Nat → ℚ) (count : Nat)
    (colors : Nat → HSL) : Nat → HSL :=
  fun i =>
    if i < count ∧ i % updateInterval count = 0 then
      { h := hueBaseOf g + (rand i - 0.5) * hueRangeOf g, s := 1, l := 0.5 }
    else colors i

noncomputable section

/-- A 3-D vector with real coordinates, for the shader math. -/
structure V3 where
  x : ℝ
  y : ℝ
  z : ℝ

/-- Componentwise GLSL mix. -/
def mix3 (a b : V3) (k : ℝ) : V3 :=
  { x := a.x * (1 - k) + b.x * k
    y := a.y * (1 - k) + b.y * k
    z := a.z * (1 - k) + b.z * k }

/-- GLSL step: 0 below the edge, otherwise 1. -/
def step (edge x : ℝ) : ℝ :=
  if x < edge then 0 else 1

/-- The per-particle random vec4 attribute. -/
structure Rand4 where
  x : ℝ
  y : ℝ
  z : ℝ
  w : ℝ

/-- The FIST branch of the vertex program: ring versus planet body,
    selected by step applied at 0.3 to random.w. -/
def fistTarget (t : ℝ) (hand : V3) (rnd : Rand4) : V3 :=
  let r := rnd.x
  let ringAngle := r * 6.28318 + t * 0.3
  let ringRadius := 120 + r * 80
  let isRing := step 0.3 rnd.w
  if isRing > 0.5 then
    { x := hand.x + Real.cos ringAngle * ringRadius
      y := hand.y + Real.sin ringAngle * ringRadius * 0.2
      z := hand.z + Real.sin ringAngle * ringRadius * 0.5 }
  else
    let planetR := r * 60
    let theta := rnd.w * 3.14159
    let phi := r * 6.28318
    { x := hand.x + planetR * Real.sin theta * Real.cos (phi + t * 0.5)
      y := hand.y + planetR * Real.sin theta * Real.sin (phi + t * 0.5)
      z := hand.z + planetR * Real.cos theta }

/-- The OPEN branch of the vertex program: core sphere versus
    wandering particles. -/
def openTarget (t : ℝ) (hand : V3) (rnd : Rand4) : V3 :=
  let r := rnd.x
  let phase := rnd.z * 6.28318
  let isCenter := step 0.3 rnd.w
  let sphereR := r * 50
  if isCenter > 0.5 then
    let theta := r * 3.14159
    let phi := rnd.w * 6.28318
    { x := hand.x + sphereR * Real.sin theta * Real.cos phi
      y := hand.y + sphereR * Real.sin theta * Real.sin phi
      z := hand.z + sphereR * Real.cos theta }
  else
    let wanderR := 200 + r * 200
    let angle := t * 0.2 + phase
    { x := hand.x + Real.cos angle * wanderR
      y := hand.y + Real.sin (angle * 1.3) * wanderR
      z := hand.z + Real.sin (t + r * 10) * 100 }

/-- The PEACE branch of the vertex program: character-slot bucketing
    by floor of r times 7. -/
def peaceTarget (t : ℝ) (hand : V3) (rnd : Rand4) : V3 :=
  let r := rnd.x
  let charIndex : ℝ := (⌊r * 7⌋ : ℤ)
  let charX := (charIndex - 3) * 40
  let yOffset := Real.sin (r * 20 + t) * 5
  { x := hand.x + charX + (rnd.w - 0.5) * 30
    y := hand.y + yOffset + (r - 0.5) * 60
    z := hand.z + Real.sin (t * 2 + r * 10) * 20 }

/-- The METAL branch of the vertex program: the parametric heart with
    heartbeat pulse. -/
def metalTarget (t : ℝ) (hand : V3) (rnd : Rand4) : V3 :=
  let r := rnd.x
  let heartT := r * 6.28318
  let beat := 1 + Real.sin (t * 8) * 0.1
  let heartX := 16 * Real.sin heartT ^ 3
  let heartY := 13 * Real.cos heartT - 5 * Real.cos (2 * heartT) -
    2 * Real.cos (3 * heartT) - Real.cos (4 * heartT)
  let scale := 5 * beat
  { x := hand.x + heartX * scale
    y := hand.y - heartY * scale + 20
    z := hand.z + Real.sin (heartT * 3 + t) * 30 }

/-- The default branch of the vertex program: ambient drift around the
    base position. -/
def noneTarget (t : ℝ) (pos : V3) (rnd : Rand4) : V3 :=
  let r := rnd.x
  let speed := rnd.y * 0.5 + 0.5
  let phase := rnd.z * 6.28318
  { x := pos.x + Real.sin (t * speed + phase) * 50
    y := pos.y + Real.cos (t * speed * 0.7 + phase) * 50
    z := pos.z + Real.sin (t * 0.3 + r * 10) * 30 }

/-- The gesture-indexed blend factor assigned in the vertex program. -/
def blendOf : Gesture → ℝ
  | Gesture.NONE => 0.02
  | Gesture.FIST => 0.95
  | Gesture.OPEN => 0.9
  | Gesture.PEACE => 0.92
  | Gesture.METAL => 0.94

/-- The gesture-indexed target selection of the vertex program. -/
def targetOf (g : Gesture) (t : ℝ) (hand pos : V3) (rnd : Rand4) : V3 :=
  match g with
  | Gesture.FIST => fistTarget t hand rnd
  | Gesture.OPEN => openTarget t hand rnd
  | Gesture.PEACE => peaceTarget t hand rnd
  | Gesture.METAL => metalTarget t hand rnd
  | Gesture.NONE => noneTarget t pos rnd

/-- One full position update of the vertex program: scale the hand
    uniform by 500, select the gesture target, mix toward it with the
    gesture blend times 0.1, then add the noise offset. -/
def vertexNewPos (g : Gesture) (time : ℝ) (handPos pos : V3) (rnd : Rand4) : V3 :=
  let t := time * 2
  let hand : V3 := { x := handPos.x * 500, y := handPos.y * 500, z := handPos.z * 500 }
  let target := targetOf g t hand pos rnd
  let p := mix3 pos target (blendOf g * 0.1)
  { x := p.x + Real.sin (t + rnd.x * 10) * 2
    y := p.y + Real.cos (t + rnd.x * 10) * 2
    z := p.z + Real.sin (t * 0.5 + rnd.x * 10) * 2 }

/-- Modelled from the spec: the turbulence offset as the specification
    words it, with all three components taking the same argument
    t plus r0 times 10. Specification side of claim C3. -/
def specTurbulence (t r : ℝ) : V3 :=
  { x := Real.sin (t + r * 10) * 2
    y := Real.cos (t + r * 10) * 2
    z := Real.sin (t + r * 10) * 2 }

end

/-- Claim C1: for every landmark set and every previous gesture, the
    output of detectGesture is decided by the four finger-extension
    booleans through the priority rule of the spec, the four rule rows
    map to METAL, PEACE, FIST and OPEN, and every combination matching
    no rule returns the previous gesture unchanged, so the rule never
    switches spontaneously to NONE. -/
theorem gesture_rule_refines :
    (∀ (lm : Landmarks) (prev : Gesture),
        detectGesture lm prev = specGestureRule (fingersOf lm) prev) ∧
    (∀ prev, specGestureRule ⟨true, false, false, true⟩ prev = Gesture.METAL) ∧
    (∀ prev, specGestureRule ⟨true, true, false, false⟩ prev = Gesture.PEACE) ∧
    (∀ prev, specGestureRule ⟨false, false, false, false⟩ prev = Gesture.FIST) ∧
    (∀ prev, specGestureRule ⟨true, true, true, true⟩ prev = Gesture.OPEN) ∧
    (∀ (i m r p : Bool) (prev : Gesture),
        (FingerCombo.mk i m r p = ⟨true, false, false, true⟩ ∨
         FingerCombo.mk i m r p = ⟨true, true, false, false⟩ ∨
         FingerCombo.mk i m r p = ⟨false, false, false, false⟩ ∨
         FingerCombo.mk i m r p = ⟨true, true, true, true⟩) ∨
        specGestureRule ⟨i, m, r, p⟩ prev = prev) := by
  refine ⟨?_, ?_, ?_, ?_, ?_, ?_⟩
  · intro lm prev
    cases h1 : isFingerExtended lm 8 5 <;>
      cases h2 : isFingerExtended lm 12 9 <;>
        cases h3 : isFingerExtended lm 16 13 <;>
          cases h4 : isFingerExtended lm 20 17 <;>
            simp [detectGesture, specGestureRule, fingersOf, h1, h2, h3, h4]
  · intro prev; simp [specGestureRule]
  · intro prev; simp [specGestureRule]
  · intro prev; simp [specGestureRule]
  · intro prev; simp [specGestureRule]
  · decide

/-- Claim C6: the anchor is the midpoint of wrist and middle-finger
    base with mirrored x, sign-flipped y, and negated clamped z, and on
    the concrete landmark set with both points at x 0.3, y 0.4, z 0 it
    evaluates to x 0.4, y 0.2, z 0. -/
theorem anchor_mapping :
    (∀ lm : Landmarks,
        (computeAnchor lm).x = (1 - ((lm 0).x + (lm 9).x) / 2) * 2 - 1 ∧
        (computeAnchor lm).y = -(((lm 0).y + (lm 9).y) / 2 * 2 - 1) ∧
        (computeAnchor lm).z = max (-1) (min 1 (-(((lm 0).z + (lm 9).z) / 2))) ∧
        -1 ≤ (computeAnchor lm).z ∧ (computeAnchor lm).z ≤ 1) ∧
    (computeAnchor (fun _ => ⟨0.3, 0.4, 0⟩)).x = 0.4 ∧
    (computeAnchor (fun _ => ⟨0.3, 0.4, 0⟩)).y = 0.2 ∧
    (computeAnchor (fun _ => ⟨0.3, 0.4, 0⟩)).z = 0 := by
  constructor
  · intro lm
    refine ⟨rfl, rfl, rfl, le_max_left _ _, ?_⟩
    exact max_le (by norm_num) (min_le_left _ _)
  · refine ⟨by norm_num [computeAnchor], by norm_num [computeAnchor],
      by norm_num [computeAnchor]⟩

/-- Claim C7: a non-thumb finger with the tip/base pairs 8 and 5, 12
    and 9, 16 and 13, 20 and 17 is classified extended exactly when the
    tip y-coordinate is below the base y-coordinate minus 0.05, the
    thumb is classified extended exactly when the absolute x distance
    between landmarks 4 and 2 exceeds 0.05, and detectGesture reads
    exactly these four finger flags. -/
theorem finger_extension_rule :
    ∀ lm : Landmarks,
      (isFingerExtended lm 8 5 = true ↔ (lm 8).y < (lm 5).y - 0.05) ∧
      (isFingerExtended lm 12 9 = true ↔ (lm 12).y < (lm 9).y - 0.05) ∧
      (isFingerExtended lm 16 13 = true ↔ (lm 16).y < (lm 13).y - 0.05) ∧
      (isFingerExtended lm 20 17 = true ↔ (lm 20).y < (lm 17).y - 0.05) ∧
      (isThumbExtended lm = true ↔ |(lm 4).x - (lm 2).x| > 0.05) ∧
      fingersOf lm = ⟨isFingerExtended lm 8 5, isFingerExtended lm 12 9,
        isFingerExtended lm 16 13, isFingerExtended lm 20 17⟩ := by
  intro lm
  refine ⟨?_, ?_, ?_, ?_, ?_, rfl⟩ <;>
    simp [isFingerExtended, isThumbExtended]

/-- Claim C9: on a frame without a hand the gesture becomes NONE unless
    a forced override is active, in which case it is kept, and the
    anchor keeps its last value in both cases; the handler is a total
    function, so it never throws. -/
theorem no_hand_behaviour :
    ∀ st : AppState,
      (onHandResults none st).currentGesture =
        (if st.isForcedShape then st.currentGesture else Gesture.NONE) ∧
      (onHandResults none st).handPosition = st.handPosition := by
  intro st
  cases h : st.isForcedShape <;> simp [onHandResults, h]

/-- Claim C10: on a frame with a hand the anchor is recomputed from the
    live landmarks regardless of the forced flag, while the gesture is
    reclassified only when no forced override is active. -/
theorem forced_anchor_tracking :
    ∀ (st : AppState) (lm : Landmarks),
      (onHandResults (some lm) st).handPosition = computeAnchor lm ∧
      (onHandResults (some lm) st).currentGesture =
        (if st.isForcedShape then st.currentGesture
         else detectGesture lm st.currentGesture) := by
  intro st lm
  cases h : st.isForcedShape <;> simp [onHandResults, h]

/-- Helper: under the timer invariant, forcing a shape leaves exactly
    the freshly scheduled reversion timeout pending. -/
theorem forceShape_pending (st : AppState) (g : Gesture) (now : Nat)
    (hInv : TimerInv st) :
    (forceShape g now st).pending = [(st.nextId, now + 5000)] := by
  obtain ⟨hlen, hall⟩ := hInv
  rcases hp : st.pending with _ | ⟨p, rest⟩
  · cases hf : st.forcedShapeTimer <;> simp [forceShape, hp, hf]
  · have hone : st.forcedShapeTimer = some p.1 := by
      refine hall p ?_
      rw [hp]
      exact List.mem_cons_self p rest
    have hrest : rest = [] := by
      rw [hp] at hlen
      simp only [List.length_cons] at hlen
      have : rest.length = 0 := by omega
      exact List.length_eq_zero.mp this
    subst hrest
    simp [forceShape, hp, hone]

/-- Claim C2: forcing a gesture sets it at once and suppresses live
    classification; the single scheduled reversion timeout fires 5000
    milliseconds later and reverts to NONE, never to the live
    classification, after which classification resumes; issuing an
    override cancels any pending reversion first, so at most one
    reversion timeout is ever pending, and that remains true after
    firing and after hand frames. -/
theorem forced_override_lifecycle :
    ∀ (st : AppState) (g : Gesture) (now : Nat) (lm lm2 : Landmarks) (tid : Nat),
      TimerInv st →
      (forceShape g now st).currentGesture = g ∧
      (forceShape g now st).isForcedShape = true ∧
      (onHandResults (some lm) (forceShape g now st)).currentGesture = g ∧
      (forceShape g now st).pending = [(st.nextId, now + 5000)] ∧
      (forceShape g now st).forcedShapeTimer = some st.nextId ∧
      (fireTimer st.nextId (forceShape g now st)).currentGesture = Gesture.NONE ∧
      (fireTimer st.nextId (forceShape g now st)).isForcedShape = false ∧
      (fireTimer st.nextId (forceShape g now st)).pending = [] ∧
      (onHandResults (some lm2) (fireTimer st.nextId (forceShape g now st))).currentGesture =
        detectGesture lm2 Gesture.NONE ∧
      TimerInv (forceShape g now st) ∧
      TimerInv (fireTimer tid (forceShape g now st)) ∧
      TimerInv (onHandResults (some lm) (forceShape g now st)) := by
  intro st g now lm lm2 tid hInv
  have hpend := forceShape_pending st g now hInv
  have hg : (forceShape g now st).currentGesture = g := by simp [forceShape]
  have hf : (forceShape g now st).isForcedShape = true := by simp [forceShape]
  have ht : (forceShape g now st).forcedShapeTimer = some st.nextId := by
    simp [forceShape]
  have hfire : fireTimer st.nextId (forceShape g now st) =
      { forceShape g now st with
          isForcedShape := false
          currentGesture := Gesture.NONE
          pending := [] } := by
    simp [fireTimer, hpend]
  refine ⟨hg, hf, ?_, hpend, ht, ?_, ?_, ?_, ?_, ?_, ?_, ?_⟩
  · simp [onHandResults, hf, hg]
  · rw [hfire]
  · rw [hfire]
  · rw [hfire]
  · rw [hfire]
    simp [onHandResults]
  · refine ⟨by rw [hpend]; simp, ?_⟩
    intro p hp
    rw [hpend] at hp
    simp only [List.mem_singleton] at hp
    rw [hp, ht]
  · by_cases htid : st.nextId = tid
    · subst htid
      rw [hfire]
      exact ⟨by simp, by simp⟩
    · have : fireTimer tid (forceShape g now st) = forceShape g now st := by
        simp [fireTimer, hpend, htid]
      rw [this]
      refine ⟨by rw [hpend]; simp, ?_⟩
      intro p hp
      rw [hpend] at hp
      simp only [List.mem_singleton] at hp
      rw [hp, ht]
  · have hsame : (onHandResults (some lm) (forceShape g now st)).pending =
        (forceShape g now st).pending ∧
        (onHandResults (some lm) (forceShape g now st)).forcedShapeTimer =
          (forceShape g now st).forcedShapeTimer := by
      simp [onHandResults, hf]
    refine ⟨?_, ?_⟩
    · rw [hsame.1, hpend]; simp
    · intro p hp
      rw [hsame.1, hpend] at hp
      simp only [List.mem_singleton] at hp
      rw [hsame.2, hp, ht]

/-- Closed witness for the override lifecycle theorem at the initial
    state, forcing FIST at time 0. -/
theorem forced_override_lifecycle_witness :
    TimerInv initState ∧
    (forceShape Gesture.FIST 0 initState).currentGesture = Gesture.FIST ∧
    (fireTimer initState.nextId
      (forceShape Gesture.FIST 0 initState)).currentGesture = Gesture.NONE := by
  have hInv : TimerInv initState := by
    constructor
    · simp [initState]
    · intro p hp
      simp [initState] at hp
  have h := forced_override_lifecycle initState Gesture.FIST 0
    (fun _ => ⟨0, 0, 0⟩) (fun _ => ⟨0, 0, 0⟩) 0 hInv
  exact ⟨hInv, h.1, h.2.2.2.2.2.1⟩

/-- Claim C5: the color pass touches exactly the indices below count
    that are multiples of the stride max 1 (count / 300); a touched
    particle receives saturation 1, lightness 0.5 and a hue inside the
    band hueBase plus or minus hueRange / 2 whenever the random draw
    lies in the unit interval; untouched particles keep their previous
    color; and the per-gesture hue parameters are the five listed
    pairs. -/
theorem color_sampling :
    ∀ (g : Gesture) (rand : Nat → ℚ) (count : Nat) (colors : Nat → HSL) (i : Nat),
      0 ≤ rand i → rand i < 1 →
      ((i < count ∧ i % updateInterval count = 0 →
          updateParticleColors g rand count colors i =
            { h := hueBaseOf g + (rand i - 0.5) * hueRangeOf g, s := 1, l := 0.5 } ∧
          hueBaseOf g - hueRangeOf g / 2 ≤ (updateParticleColors g rand count colors i).h ∧
          (updateParticleColors g rand count colors i).h ≤ hueBaseOf g + hueRangeOf g / 2) ∧
       (¬(i < count ∧ i % updateInterval count = 0) →
          updateParticleColors g rand count colors i = colors i) ∧
       updateInterval count = max 1 (count / 300) ∧
       hueBaseOf Gesture.NONE = 0.5 ∧ hueRangeOf Gesture.NONE = 0.1 ∧
       hueBaseOf Gesture.FIST = 0.08 ∧ hueRangeOf Gesture.FIST = 0.1 ∧
       hueBaseOf Gesture.OPEN = 0.4 ∧ hueRangeOf Gesture.OPEN = 0.15 ∧
       hueBaseOf Gesture.PEACE = 0.6 ∧ hueRangeOf Gesture.PEACE = 0.2 ∧
       hueBaseOf Gesture.METAL = 0.95 ∧ hueRangeOf Gesture.METAL = 0.1) := by
  intro g rand count colors i h0 h1
  have hrange : 0 ≤ hueRangeOf g := by
    cases g <;> norm_num [hueRangeOf]
  refine ⟨?_, ?_, rfl, rfl, rfl, rfl, rfl, rfl, rfl, rfl, rfl, rfl, rfl⟩
  · intro hin
    have he : updateParticleColors g rand count colors i =
        { h := hueBaseOf g + (rand i - 0.5) * hueRangeOf g, s := 1, l := 0.5 } := by
      simp only [updateParticleColors, if_pos hin]
    refine ⟨he, ?_, ?_⟩
    · rw [he]
      have hmul : 0 ≤ rand i * hueRangeOf g := mul_nonneg h0 hrange
      dsimp only
      nlinarith [hmul]
    · rw [he]
      have hmul : 0 ≤ (1 - rand i) * hueRangeOf g :=
        mul_nonneg (by linarith) hrange
      dsimp only
      nlinarith [hmul]
  · intro hout
    simp only [updateParticleColors, if_neg hout]

/-- Closed witness for the color sampling theorem: gesture FIST, 2000
    particles, index 0, random draw 0. -/
theorem color_sampling_witness :
    (0 : ℚ) ≤ 0 ∧ (0 : ℚ) < 1 ∧
    updateParticleColors Gesture.FIST (fun _ => 0) 2000 (fun _ => ⟨0, 0, 0⟩) 0 =
      { h := 0.08 + ((0 : ℚ) - 0.5) * 0.1, s := 1, l := 0.5 } := by
  refine ⟨le_refl 0, by norm_num, ?_⟩
  exact ((color_sampling Gesture.FIST (fun _ => 0) 2000 (fun _ => ⟨0, 0, 0⟩) 0
    (le_refl 0) (by norm_num)).1 ⟨by norm_num, by decide⟩).1

/-- Claim C3 amended: every frame the position becomes the mix of the
    stored position toward the gesture target with weight blend times
    0.1, using the blends 0.02, 0.95, 0.9, 0.92 and 0.94, and then a
    turbulence offset is added to every particle whose x and y
    components are sine and cosine of t plus r0 times 10 scaled by 2,
    while the z component is the sine of t times 0.5 plus r0 times 10
    scaled by 2, so z does not use the same argument as x and y. -/
theorem position_update_formula :
    ∀ (g : Gesture) (time : ℝ) (handPos pos : V3) (rnd : Rand4),
      (vertexNewPos g time handPos pos rnd).x =
        (mix3 pos (targetOf g (time * 2)
            ⟨handPos.x * 500, handPos.y * 500, handPos.z * 500⟩ pos rnd)
          (blendOf g * 0.1)).x + Real.sin (time * 2 + rnd.x * 10) * 2 ∧
      (vertexNewPos g time handPos pos rnd).y =
        (mix3 pos (targetOf g (time * 2)
            ⟨handPos.x * 500, handPos.y * 500, handPos.z * 500⟩ pos rnd)
          (blendOf g * 0.1)).y + Real.cos (time * 2 + rnd.x * 10) * 2 ∧
      (vertexNewPos g time handPos pos rnd).z =
        (mix3 pos (targetOf g (time * 2)
            ⟨handPos.x * 500, handPos.y * 500, handPos.z * 500⟩ pos rnd)
          (blendOf g * 0.1)).z + Real.sin (time * 2 * 0.5 + rnd.x * 10) * 2 ∧
      blendOf Gesture.NONE = 0.02 ∧ blendOf Gesture.FIST = 0.95 ∧
      blendOf Gesture.OPEN = 0.9 ∧ blendOf Gesture.PEACE = 0.92 ∧
      blendOf Gesture.METAL = 0.94 := by
  intro g time handPos pos rnd
  exact ⟨rfl, rfl, rfl, rfl, rfl, rfl, rfl, rfl⟩

/-- Counterexample for claim C3 as stated: at time pi over 2 with all
    randoms zero, the z component of the updated position differs from
    the mix plus the spec turbulence, whose z component reuses the
    argument t plus r0 times 10 of the x and y components. -/
theorem turbulence_z_cex :
    (vertexNewPos Gesture.NONE (Real.pi / 2) ⟨0, 0, 0⟩ ⟨0, 0, 0⟩ ⟨0, 0, 0, 0⟩).z ≠
      (mix3 ⟨0, 0, 0⟩
          (targetOf Gesture.NONE (Real.pi / 2 * 2) ⟨0 * 500, 0 * 500, 0 * 500⟩
            ⟨0, 0, 0⟩ ⟨0, 0, 0, 0⟩)
          (blendOf Gesture.NONE * 0.1)).z +
        (specTurbulence (Real.pi / 2 * 2) 0).z := by
  have hL : (vertexNewPos Gesture.NONE (Real.pi / 2) ⟨0, 0, 0⟩ ⟨0, 0, 0⟩ ⟨0, 0, 0, 0⟩).z =
      (mix3 ⟨0, 0, 0⟩
          (targetOf Gesture.NONE (Real.pi / 2 * 2) ⟨0 * 500, 0 * 500, 0 * 500⟩
            ⟨0, 0, 0⟩ ⟨0, 0, 0, 0⟩)
          (blendOf Gesture.NONE * 0.1)).z +
        Real.sin (Real.pi / 2 * 2 * 0.5 + 0 * 10) * 2 := rfl
  have hR : (specTurbulence (Real.pi / 2 * 2) 0).z =
      Real.sin (Real.pi / 2 * 2 + 0 * 10) * 2 := rfl
  rw [hL, hR]
  have e1 : Real.pi / 2 * 2 * 0.5 + 0 * 10 = Real.pi / 2 := by ring
  have e2 : Real.pi / 2 * 2 + 0 * 10 = Real.pi := by ring
  rw [e1, e2, Real.sin_pi_div_two, Real.sin_pi]
  intro h
  have h2 := add_left_cancel h
  norm_num at h2

/-- Claim C4 amended: under METAL each particle targets the parametric
    heart at angle theta equal to r0 times 6.28318, with x equal to
    hand x plus 16 times sine cubed of theta times the pulse scale,
    y equal to hand y MINUS the heart ordinate times the pulse scale
    plus the fixed 20 bias, and a z wobble driven by 3 theta plus t. -/
theorem heart_target_formula :
    ∀ (t : ℝ) (hand : V3) (rnd : Rand4),
      (metalTarget t hand rnd).x =
        hand.x + 16 * Real.sin (rnd.x * 6.28318) ^ 3 *
          (5 * (1 + Real.sin (t * 8) * 0.1)) ∧
      (metalTarget t hand rnd).y =
        hand.y - (13 * Real.cos (rnd.x * 6.28318) - 5 * Real.cos (2 * (rnd.x * 6.28318)) -
            2 * Real.cos (3 * (rnd.x * 6.28318)) - Real.cos (4 * (rnd.x * 6.28318))) *
          (5 * (1 + Real.sin (t * 8) * 0.1)) + 20 ∧
      (metalTarget t hand rnd).z =
        hand.z + Real.sin (rnd.x * 6.28318 * 3 + t) * 30 := by
  intro t hand rnd
  exact ⟨rfl, rfl, rfl⟩

/-- Counterexample for claim C4 as stated: at time 0 with r0 equal to
    0 and the hand at the origin, the y target of the METAL branch is
    minus 5, not the plus 45 that adding the scaled heart ordinate to
    the hand y would give. -/
theorem heart_y_cex :
    (metalTarget 0 ⟨0, 0, 0⟩ ⟨0, 0, 0, 0⟩).y ≠
      (0 : ℝ) + (13 * Real.cos (0 * 6.28318) - 5 * Real.cos (2 * (0 * 6.28318)) -
          2 * Real.cos (3 * (0 * 6.28318)) - Real.cos (4 * (0 * 6.28318))) *
        (5 * (1 + 0.1 * Real.sin (8 * 0))) + 20 := by
  have hl : (metalTarget 0 ⟨0, 0, 0⟩ ⟨0, 0, 0, 0⟩).y =
      0 - (13 * Real.cos (0 * 6.28318) - 5 * Real.cos (2 * (0 * 6.28318)) -
          2 * Real.cos (3 * (0 * 6.28318)) - Real.cos (4 * (0 * 6.28318))) *
        (5 * (1 + Real.sin (0 * 8) * 0.1)) + 20 := rfl
  rw [hl]
  norm_num [Real.cos_zero, Real.sin_zero]

/-- Claim C8: in the FIST shape a particle is a ring member exactly
    when its type selector w is at least 0.3 (the boundary value 0.3
    selects the ring), with 0.29 giving the planet body and 0.31 the
    ring; ring members target the flattened circle of radius 120 plus
    r0 times 80, which lies between 120 and 200, and planet members lie
    within squared distance 60 squared of the hand. -/
theorem fist_ring_membership :
    ∀ (t : ℝ) (hand : V3) (rnd : Rand4),
      0 ≤ rnd.x → rnd.x ≤ 1 →
      ((step 0.3 rnd.w > 0.5 ↔ 0.3 ≤ rnd.w) ∧
       step 0.3 0.29 = 0 ∧ step 0.3 0.31 = 1 ∧ step 0.3 0.3 = 1 ∧
       (0.3 ≤ rnd.w →
          fistTarget t hand rnd =
            { x := hand.x + Real.cos (rnd.x * 6.28318 + t * 0.3) * (120 + rnd.x * 80)
              y := hand.y + Real.sin (rnd.x * 6.28318 + t * 0.3) * (120 + rnd.x * 80) * 0.2
              z := hand.z + Real.sin (rnd.x * 6.28318 + t * 0.3) * (120 + rnd.x * 80) * 0.5 } ∧
          120 ≤ 120 + rnd.x * 80 ∧ 120 + rnd.x * 80 ≤ 200) ∧
       (rnd.w < 0.3 →
          ((fistTarget t hand rnd).x - hand.x) ^ 2 +
            ((fistTarget t hand rnd).y - hand.y) ^ 2 +
            ((fistTarget t hand rnd).z - hand.z) ^ 2 ≤ 60 ^ 2)) := by
  intro t hand rnd hx0 hx1
  have hstep : ∀ w : ℝ, step 0.3 w > 0.5 ↔ 0.3 ≤ w := by
    intro w
    unfold step
    by_cases hw : w < (0.3 : ℝ)
    · simp only [if_pos hw]
      constructor
      · intro hcon; norm_num at hcon
      · intro hcon; linarith
    · simp only [if_neg hw]
      constructor
      · intro _; linarith [not_lt.mp hw]
      · intro _; norm_num
  refine ⟨hstep rnd.w, ?_, ?_, ?_, ?_, ?_⟩
  · unfold step; norm_num
  · unfold step; norm_num
  · unfold step; norm_num
  · intro hw
    have hs : step 0.3 rnd.w > 0.5 := (hstep rnd.w).mpr hw
    refine ⟨?_, by linarith [mul_nonneg hx0 (by norm_num : (0 : ℝ) ≤ 80)], by nlinarith⟩
    simp only [fistTarget, if_pos hs]
  · intro hw
    have hs : ¬ step 0.3 rnd.w > 0.5 := by
      rw [hstep rnd.w]
      intro hcon; linarith
    have hft : fistTarget t hand rnd =
        { x := hand.x + rnd.x * 60 * Real.sin (rnd.w * 3.14159) *
            Real.cos (rnd.x * 6.28318 + t * 0.5)
          y := hand.y + rnd.x * 60 * Real.sin (rnd.w * 3.14159) *
            Real.sin (rnd.x * 6.28318 + t * 0.5)
          z := hand.z + rnd.x * 60 * Real.cos (rnd.w * 3.14159) } := by
      simp only [fistTarget, if_neg hs]
    rw [hft]
    have h1 := Real.sin_sq_add_cos_sq (rnd.w * 3.14159)
    have h2 := Real.sin_sq_add_cos_sq (rnd.x * 6.28318 + t * 0.5)
    have key : (hand.x + rnd.x * 60 * Real.sin (rnd.w * 3.14159) *
          Real.cos (rnd.x * 6.28318 + t * 0.5) - hand.x) ^ 2 +
        (hand.y + rnd.x * 60 * Real.sin (rnd.w * 3.14159) *
          Real.sin (rnd.x * 6.28318 + t * 0.5) - hand.y) ^ 2 +
        (hand.z + rnd.x * 60 * Real.cos (rnd.w * 3.14159) - hand.z) ^ 2 =
        (rnd.x * 60) ^ 2 := by
      have expand : (hand.x + rnd.x * 60 * Real.sin (rnd.w * 3.14159) *
            Real.cos (rnd.x * 6.28318 + t * 0.5) - hand.x) ^ 2 +
          (hand.y + rnd.x * 60 * Real.sin (rnd.w * 3.14159) *
            Real.sin (rnd.x * 6.28318 + t * 0.5) - hand.y) ^ 2 +
          (hand.z + rnd.x * 60 * Real.cos (rnd.w * 3.14159) - hand.z) ^ 2 =
          (rnd.x * 60) ^ 2 * ((Real.sin (rnd.w * 3.14159)) ^ 2 *
            ((Real.sin (rnd.x * 6.28318 + t * 0.5)) ^ 2 +
              (Real.cos (rnd.x * 6.28318 + t * 0.5)) ^ 2) +
            (Real.cos (rnd.w * 3.14159)) ^ 2) := by ring
      rw [expand, h2]
      rw [mul_one]
      rw [h1, mul_one]
    rw [key]
    nlinarith [mul_nonneg hx0 hx0]

/-- Closed witness for the FIST ring membership theorem at r0 equal to
    0 and type selector 1. -/
theorem fist_ring_membership_witness :
    (0 : ℝ) ≤ 0 ∧ (0 : ℝ) ≤ 1 ∧ step 0.3 (0.31 : ℝ) = 1 := by
  refine ⟨le_refl 0, by norm_num, ?_⟩
  exact (fist_ring_membership 0 ⟨0, 0, 0⟩ ⟨0, 0, 0, 1⟩
    (le_refl 0) (by norm_num)).2.2.1

end ParticleApp
